import Mathlib

/-!
Verification of the RAG car-assistant backend (vector-sync listener,
TTL response cache, RAG controller) against its specification.

The JavaScript source is shallowly embedded: documents and change events
become Lean structures, the MongoDB `carvectors` collection becomes an
association list keyed by `carId`, asynchronous provider calls become
explicit function parameters returning `Except`, and wall-clock time is
an explicit `Nat` argument.
-/

namespace RagApp

/-- A `CarProduct` document (models/carModel.js).  Optional schema fields
are `Option`; `name`/`brand` are required by the schema but the embedding
keeps them `Option` so that malformed documents can be discussed. -/
structure Car where
  id : Nat
  name : Option String
  brand : Option String
  modelYear : Option Int
  category : Option String
  description : Option String
  price : Option Int
  fuelType : Option String
  transmission : Option String
  engineCapacity : Option String
  mileage : Option String
deriving DecidableEq, Repr

/-- The `metadata` subdocument written to `CarVector` documents. -/
structure Metadata where
  name : Option String
  brand : Option String
  category : Option String
  price : Option Int
  available : Option Bool
  source : String
deriving DecidableEq, Repr

/-- A `CarVector` document (models/vectorModel.js): back-reference id,
canonical text, embedding vector, metadata. -/
structure VectorRecord where
  carId : Nat
  text : String
  embedding : List Int
  metadata : Metadata
deriving DecidableEq, Repr

/-- The `carvectors` collection, as the list of its documents. -/
abbrev Store := List VectorRecord

/-- `TEXT_FIELDS` from listeners/vectorSync.js: field names whose change
triggers re-embedding. -/
def TEXT_FIELDS : List String :=
  ["name", "brand", "description", "category", "fuelType",
   "transmission", "engineCapacity", "mileage"]

/-- `DEBOUNCE_MS` from listeners/vectorSync.js. -/
def DEBOUNCE_MS : Nat := 3000

/-- JS whitespace characters recognized by `String.prototype.trim`
(ASCII subset used by this model). -/
def isWsChar (c : Char) : Bool :=
  c == ' ' || c == '\t' || c == '\n' || c == '\r'

/-- Model of `String.prototype.trim`: drop leading and trailing
whitespace (structural recursion over the character list). -/
def jsTrim (s : String) : String :=
  String.mk (((s.data.dropWhile isWsChar).reverse.dropWhile isWsChar).reverse)

/-- Model of `String.prototype.toLowerCase` (ASCII case folding). -/
def jsToLower (s : String) : String :=
  String.mk (s.data.map Char.toLower)

/-- Canonical embedding text built by `upsertEmbeddingForCar`:
the template literal
`` `${car.name || ""} ${car.brand || ""} ... ${car.mileage || ""}`.trim() ``.
A missing field contributes the empty string to its slot. -/
def carText (car : Car) : String :=
  ((car.name.getD "") ++ " " ++ (car.brand.getD "") ++ " " ++
   (car.category.getD "") ++ " " ++ (car.description.getD "") ++ " " ++
   (car.fuelType.getD "") ++ " " ++ (car.transmission.getD "") ++ " " ++
   (car.engineCapacity.getD "") ++ " " ++ (car.mileage.getD "")) |> jsTrim

/-- `findOneAndUpdate` touches the first document matching the filter;
`updateFirst` applies `f` to the first record whose `carId` matches. -/
def updateFirst (store : Store) (carId : Nat) (f : VectorRecord → VectorRecord) :
    Store :=
  match store with
  | [] => []
  | r :: rs => if r.carId == carId then f r :: rs else r :: updateFirst rs carId f

/-- `CarVector.findOneAndUpdate({carId}, doc, {upsert: true})` with a full
replacement document: replace the existing record for `carId`, or insert. -/
def upsertVec (store : Store) (rec : VectorRecord) : Store :=
  if store.any (fun r => r.carId == rec.carId) then
    updateFirst store rec.carId (fun _ => rec)
  else
    store ++ [rec]

/-- `CarVector.findOneAndDelete({carId})`: remove the first matching record. -/
def deleteFirst (store : Store) (carId : Nat) : Store :=
  match store with
  | [] => []
  | r :: rs => if r.carId == carId then rs else r :: deleteFirst rs carId

/-- The metadata-only `findOneAndUpdate` with `$set` on `metadata.price` /
`metadata.available` and `{upsert: false}` (the non-re-embed update path).
Mongoose strips `undefined` values from the `$set`, so only supplied keys
change. -/
def patchMetadata (store : Store) (carId : Nat)
    (price : Option Int) (avail : Option Bool) : Store :=
  updateFirst store carId (fun r =>
    { r with metadata :=
      { r.metadata with
        price := if price.isSome then price else r.metadata.price
        available := if avail.isSome then avail else r.metadata.available } })

/-- Number of vector records stored for a given `carId`. -/
def countId (store : Store) (carId : Nat) : Nat :=
  (store.filter (fun r => r.carId == carId)).length

/-- `upsertEmbeddingForCar(car)` from listeners/vectorSync.js.  `embed`
models `embeddings.embedQuery`; its failure is caught inside the function
(logged, early return), so the store is returned untouched on error.
On success the full `CarVector` document is upserted keyed by `carId`;
the replacement metadata carries `name/brand/category/price/source` only. -/
def upsertEmbeddingForCar (embed : String → Except String (List Int))
    (store : Store) (car : Car) : Store :=
  let text := carText car
  match embed text with
  | .error _ => store
  | .ok vector =>
      upsertVec store
        { carId := car.id
          text := text
          embedding := vector
          metadata :=
            { name := car.name
              brand := car.brand
              category := car.category
              price := car.price
              available := none
              source := "car_database" } }

/-- Change-stream operation types relevant to the handler. -/
inductive ChangeOp
  | insert
  | update
  | delete
deriving DecidableEq, Repr

/-- A change-stream event as consumed by `watchCarChanges`:
`operationType`, `documentKey._id`, the `fullDocument` delivered under
`updateLookup` (absent when the document vanished or on delete), and the
content of `updateDescription.updatedFields` — its key set plus the new
values of the two passthrough fields `price` / `available` when present. -/
structure ChangeEvent where
  op : ChangeOp
  carId : Nat
  fullDocument : Option Car
  updatedFieldNames : List String
  updPrice : Option Int
  updAvailable : Option Bool
deriving DecidableEq, Repr

/-- Process-local state mutated by the listener: the `carvectors`
collection, the key set of `debounceMap`, and an instrumentation counter
of embedding-pipeline invocations (each entry into
`upsertEmbeddingForCar` performs exactly one `embedQuery` call). -/
structure WatcherState where
  store : Store
  debounce : List Nat
  embedCalls : Nat
deriving DecidableEq, Repr

/-- Body of the `changeStream.on("change")` handler, before its
`try/catch`: an `Except` models a thrown processing error.  Mirrors the
source branch for branch, including the unreachable
`else if (op === "update")` branch (the first `if` already matches
updates).  Calling `upsertEmbeddingForCar(undefined)` dereferences
`car._id` and throws, which the outer catch will absorb. -/
def processChangeBody (embed : String → Except String (List Int))
    (st : WatcherState) (ev : ChangeEvent) : Except String WatcherState :=
  if ev.op == .insert || ev.op == .update then
    match ev.fullDocument with
    | none => .error "TypeError: cannot read _id of undefined"
    | some fulldoc =>
        .ok { st with
              store := upsertEmbeddingForCar embed st.store fulldoc
              embedCalls := st.embedCalls + 1 }
  else if ev.op == .update then
    if ev.updatedFieldNames.any (fun f => TEXT_FIELDS.contains f) then
      .ok { st with
            debounce :=
              if st.debounce.contains ev.carId then st.debounce
              else ev.carId :: st.debounce }
    else
      if ev.updPrice.isSome || ev.updAvailable.isSome then
        .ok { st with
              store := patchMetadata st.store ev.carId ev.updPrice ev.updAvailable }
      else .ok st
  else if ev.op == .delete then
    .ok { st with store := deleteFirst st.store ev.carId }
  else .ok st

/-- The full change handler: the body wrapped in `try { ... } catch`
(the error is logged and the event dropped, state kept). -/
def processChange (embed : String → Except String (List Int))
    (st : WatcherState) (ev : ChangeEvent) : WatcherState :=
  match processChangeBody embed st ev with
  | .ok st' => st'
  | .error _ => st

/-- The subscription loop over a sequence of delivered events. -/
def processEvents (embed : String → Except String (List Int))
    (st : WatcherState) (evs : List ChangeEvent) : WatcherState :=
  evs.foldl (processChange embed) st

/-- The debounce timer callback for `carId`
(`setTimeout` body in `watchCarChanges`):
`try { car := findById(carId); if car, upsert } catch { log } finally
{ debounceMap.delete(carId) }`.  `findById` models
`CarProduct.findById`, whose rejection the catch absorbs; the `finally`
always removes the map entry. -/
def debounceFire (embed : String → Except String (List Int))
    (findById : Nat → Except String (Option Car))
    (st : WatcherState) (carId : Nat) : WatcherState :=
  let st1 :=
    match findById carId with
    | .error _ => st
    | .ok none => st
    | .ok (some car) =>
        { st with
          store := upsertEmbeddingForCar embed st.store car
          embedCalls := st.embedCalls + 1 }
  { st1 with debounce := st1.debounce.filter (fun x => !(x == carId)) }

/-- Delay before re-invoking `watchCarChanges` after a stream error. -/
def STREAM_RETRY_MS : Nat := 5000

/-- What the watcher does next after a feed-level event. -/
inductive WatcherAction
  | rewatch (delayMs : Nat)
deriving DecidableEq, Repr

/-- The `changeStream.on("error")` handler: log, then
`setTimeout(() => watchCarChanges(), 5000)`.  Returning `.ok` models
that the handler itself never throws to callers. -/
def onStreamError (_err : String) : Except String WatcherAction :=
  .ok (.rewatch STREAM_RETRY_MS)

/-- A cache entry as stored by `SimpleCache.set`: the value together
with its absolute expiry instant. -/
structure CacheEntry (α : Type) where
  value : α
  expiresAt : Nat
deriving DecidableEq, Repr

/-- `SimpleCache` from utils/cache.js: a JS `Map` (association list with
unique keys, insertion-ordered) plus the fixed TTL in milliseconds. -/
structure SimpleCache (α : Type) where
  cache : List (String × CacheEntry α)
  ttl : Nat
deriving DecidableEq, Repr

/-- `Map.prototype.get`: value of the first (only) binding of `k`. -/
def mapLookup {α : Type} (m : List (String × CacheEntry α)) (k : String) :
    Option (CacheEntry α) :=
  match m with
  | [] => none
  | (k', v) :: rest => if k' == k then some v else mapLookup rest k

/-- `Map.prototype.set`: replace the binding in place if the key exists,
otherwise append a new binding. -/
def mapSet {α : Type} (m : List (String × CacheEntry α)) (k : String)
    (v : CacheEntry α) : List (String × CacheEntry α) :=
  match m with
  | [] => [(k, v)]
  | (k', v') :: rest =>
      if k' == k then (k, v) :: rest else (k', v') :: mapSet rest k v

/-- `Map.prototype.delete`: remove the binding of `k`. -/
def mapDelete {α : Type} (m : List (String × CacheEntry α)) (k : String) :
    List (String × CacheEntry α) :=
  m.filter (fun p => !(p.1 == k))

/-- `SimpleCache.set(key, value)` at instant `now`:
stores the value under an absolute expiry `now + ttl`. -/
def cacheSet {α : Type} (c : SimpleCache α) (now : Nat) (key : String)
    (value : α) : SimpleCache α :=
  { c with cache := mapSet c.cache key { value := value, expiresAt := now + c.ttl } }

/-- `SimpleCache.get(key)` at instant `now`: returns the stored value and
the resulting cache.  Absent key gives `none`; an entry with
`now > expiresAt` is lazily deleted and reported absent; otherwise the
value is returned with the cache untouched. -/
def cacheGet {α : Type} (c : SimpleCache α) (now : Nat) (key : String) :
    Option α × SimpleCache α :=
  match mapLookup c.cache key with
  | none => (none, c)
  | some item =>
      if now > item.expiresAt then
        (none, { c with cache := mapDelete c.cache key })
      else
        (some item.value, c)

/-- `SimpleCache.cleanup()` at instant `now`: drop every expired entry. -/
def cacheCleanup {α : Type} (c : SimpleCache α) (now : Nat) : SimpleCache α :=
  { c with cache := c.cache.filter (fun p => !(now > p.2.expiresAt)) }

/-- TTL of the `ragCache` instance (3 minutes). -/
def RAG_CACHE_TTL_MS : Nat := 3 * 60 * 1000

/-- Outcome of `askCarAssistant` as seen by the HTTP caller. -/
inductive RagResponse (α : Type)
  | badRequest
  | cacheHit (payload : α)
  | fresh (payload : α)
  | serverError (msg : String)
deriving DecidableEq, Repr

/-- Cache key normalization in `askCarAssistant`:
`query.toLowerCase().trim()`. -/
def normalizeQuery (query : String) : String :=
  jsTrim (jsToLower query)

/-- `askCarAssistant` (controllers/ragController.js), with everything
after the cache check — pool client, vector similarity search, context
assembly, and the chat-model call — abstracted as `pipeline`, whose
failure is what the catch block of the controller turns into a 500 response.
Empty/whitespace-only queries are rejected up front; a cache hit returns
the cached payload; on a miss the pipeline result is cached under the
normalized key and returned. -/
def askCarAssistant {α : Type} (pipeline : String → Except String α)
    (cache : SimpleCache α) (now : Nat) (query : String) :
    RagResponse α × SimpleCache α :=
  if jsTrim query == "" then
    (.badRequest, cache)
  else
    let cacheKey := normalizeQuery query
    match cacheGet cache now cacheKey with
    | (some cached, cache1) => (.cacheHit cached, cache1)
    | (none, cache1) =>
        match pipeline query with
        | .error msg => (.serverError msg, cache1)
        | .ok responseData =>
            (.fresh responseData, cacheSet cache1 now cacheKey responseData)

/-- JS fallback `x` or "N/A" over an optional string: `undefined` and the empty
string (both falsy) yield the placeholder. -/
def jsOrNA (v : Option String) : String :=
  match v with
  | none => "N/A"
  | some s => if s == "" then "N/A" else s

/-- JS fallback `x` or "N/A" over an optional number: `undefined` and `0` yield
the placeholder. -/
def jsOrNAInt (v : Option Int) : String :=
  match v with
  | none => "N/A"
  | some n => if n == 0 then "N/A" else toString n

/-- JS template interpolation of a possibly-`undefined` string. -/
def jsInterp (v : Option String) : String :=
  match v with
  | none => "undefined"
  | some s => s

/-- `pageContent` built by `transformCarToDocument`
(controllers/carController.js): the labeled multi-line template where
every optional field falls back to the "N/A" placeholder and `price`
renders as `$<price>` when truthy. -/
def transformContent (car : Car) : String :=
  "Car: " ++ jsInterp car.name ++
  "\nBrand: " ++ jsInterp car.brand ++
  "\nModel Year: " ++ jsOrNAInt car.modelYear ++
  "\nCategory: " ++ jsOrNA car.category ++
  "\nDescription: " ++ jsOrNA car.description ++
  "\nPrice: " ++ (match car.price with
                  | none => "N/A"
                  | some p => if p == 0 then "N/A" else "$" ++ toString p) ++
  "\nFuel Type: " ++ jsOrNA car.fuelType ++
  "\nTransmission: " ++ jsOrNA car.transmission ++
  "\nEngine Capacity: " ++ jsOrNA car.engineCapacity ++
  "\nMileage: " ++ jsOrNA car.mileage

/-! ### Concrete fixtures used by witnesses and counterexamples -/

/-- An embedding provider that always succeeds. -/
def okEmbed : String → Except String (List Int) := fun _ => .ok [1]

/-- An embedding provider that always fails. -/
def failEmbed : String → Except String (List Int) :=
  fun _ => .error "embedding provider unavailable"

/-- A post-cache-check RAG pipeline that always succeeds. -/
def okPipe : String → Except String Nat := fun _ => .ok 7

/-- A post-cache-check RAG pipeline that always fails. -/
def errPipe : String → Except String Nat := fun _ => .error "llm timeout"

/-- A fully populated car document. -/
def sampleCar : Car :=
  ⟨1, some "Corolla", some "Toyota", some 2023, some "Sedan",
   some "Reliable sedan", some 20000, some "Hybrid", some "Automatic",
   some "1.8L", some "15 km/l"⟩

/-- The same car after a second rapid edit of its name. -/
def sampleCarB : Car := { sampleCar with name := some "Corolla X" }

/-- A vector record previously stored for `sampleCar`. -/
def sampleRec : VectorRecord :=
  ⟨1, "old text", [0],
   ⟨some "Corolla", some "Toyota", some "Sedan", some 20000, none,
    "car_database"⟩⟩

/-! ### Helper lemmas -/

/-- Filtering out a key removes it from `contains`. -/
theorem contains_filter_not_beq (l : List Nat) (c : Nat) :
    (l.filter (fun x => !(x == c))).contains c = false := by
  simp

theorem updateFirst_const_idem (s : Store) (rec : VectorRecord) :
    updateFirst (updateFirst s rec.carId (fun _ => rec)) rec.carId (fun _ => rec) =
      updateFirst s rec.carId (fun _ => rec) := by
  induction s with
  | nil => rfl
  | cons r rs ih =>
      by_cases h : r.carId = rec.carId
      · simp [updateFirst, h]
      · have hb : (r.carId == rec.carId) = false := by simp [h]
        simp [updateFirst, hb, ih]

theorem any_updateFirst_self (s : Store) (rec : VectorRecord)
    (h : s.any (fun r => r.carId == rec.carId) = true) :
    (updateFirst s rec.carId (fun _ => rec)).any (fun r => r.carId == rec.carId) = true := by
  induction s with
  | nil => simp at h
  | cons r rs ih =>
      by_cases hr : r.carId = rec.carId
      · simp [updateFirst, hr]
      · have hb : (r.carId == rec.carId) = false := by simp [hr]
        rw [List.any_cons, hb, Bool.false_or] at h
        simp only [updateFirst, hb, Bool.false_eq_true, if_false]
        rw [List.any_cons, hb, Bool.false_or]
        exact ih h

theorem updateFirst_no_match (s : Store) (id : Nat) (f : VectorRecord → VectorRecord)
    (h : s.any (fun r => r.carId == id) = false) :
    updateFirst s id f = s := by
  induction s with
  | nil => rfl
  | cons r rs ih =>
      rw [List.any_cons, Bool.or_eq_false_iff] at h
      simp only [updateFirst, h.1, Bool.false_eq_true, if_false]
      rw [ih h.2]

theorem updateFirst_append_self (s : Store) (rec : VectorRecord)
    (h : s.any (fun r => r.carId == rec.carId) = false) :
    updateFirst (s ++ [rec]) rec.carId (fun _ => rec) = s ++ [rec] := by
  induction s with
  | nil => simp [updateFirst]
  | cons r rs ih =>
      rw [List.any_cons, Bool.or_eq_false_iff] at h
      simp only [List.cons_append, updateFirst, h.1, Bool.false_eq_true, if_false,
        List.append_eq]
      rw [ih h.2]

theorem upsertVec_idem (s : Store) (rec : VectorRecord) :
    upsertVec (upsertVec s rec) rec = upsertVec s rec := by
  by_cases h : s.any (fun r => r.carId == rec.carId) = true
  · simp [upsertVec, h, any_updateFirst_self s rec h, updateFirst_const_idem]
  · have h' : s.any (fun r => r.carId == rec.carId) = false := by
      simpa using h
    have happ : (s ++ [rec]).any (fun r => r.carId == rec.carId) = true := by
      simp
    simp only [upsertVec, h', happ, Bool.false_eq_true, if_false, if_true]
    exact updateFirst_append_self s rec h'

theorem countId_updateFirst_const (s : Store) (rec : VectorRecord) :
    countId (updateFirst s rec.carId (fun _ => rec)) rec.carId = countId s rec.carId := by
  induction s with
  | nil => rfl
  | cons r rs ih =>
      by_cases hr : r.carId = rec.carId
      · simp [updateFirst, countId, List.filter, hr]
      · have hb : (r.carId == rec.carId) = false := by simp [hr]
        simp only [updateFirst, hb, Bool.false_eq_true, if_false]
        simpa [countId, List.filter, hb] using ih

theorem countId_append_one (s : Store) (rec : VectorRecord) :
    countId (s ++ [rec]) rec.carId = countId s rec.carId + 1 := by
  simp [countId, List.filter_append, List.filter]

theorem countId_zero_of_any_false (s : Store) (id : Nat)
    (h : s.any (fun r => r.carId == id) = false) :
    countId s id = 0 := by
  simp only [countId, List.length_eq_zero, List.filter_eq_nil_iff]
  intro x hx
  simp only [List.any_eq_false] at h
  simpa using h x hx

theorem countId_pos_of_any_true (s : Store) (id : Nat)
    (h : s.any (fun r => r.carId == id) = true) :
    1 ≤ countId s id := by
  simp only [List.any_eq_true] at h
  obtain ⟨x, hx, hpx⟩ := h
  have : x ∈ s.filter (fun r => r.carId == id) := List.mem_filter.mpr ⟨hx, hpx⟩
  have hlen := List.length_pos.mpr (List.ne_nil_of_mem this)
  simpa [countId] using hlen

theorem countId_upsertVec (s : Store) (rec : VectorRecord)
    (h : countId s rec.carId ≤ 1) :
    countId (upsertVec s rec) rec.carId = 1 := by
  by_cases ha : s.any (fun r => r.carId == rec.carId) = true
  · have h1 := countId_pos_of_any_true s rec.carId ha
    have : countId s rec.carId = 1 := Nat.le_antisymm h h1
    simp [upsertVec, ha, countId_updateFirst_const, this]
  · have h' : s.any (fun r => r.carId == rec.carId) = false := by simpa using ha
    simp [upsertVec, h', countId_append_one, countId_zero_of_any_false s rec.carId h']

/-- `Map.set` then `Map.get` on the same key yields the stored entry. -/
theorem mapLookup_mapSet_self {α : Type} (m : List (String × CacheEntry α))
    (k : String) (v : CacheEntry α) :
    mapLookup (mapSet m k v) k = some v := by
  induction m with
  | nil => simp [mapSet, mapLookup]
  | cons p rest ih =>
      by_cases h : p.1 = k
      · simp [mapSet, mapLookup, h]
      · have hb : (p.1 == k) = false := by simp [h]
        simp [mapSet, mapLookup, hb, ih]

/-- `Map.delete` then `Map.get` on the same key yields nothing. -/
theorem mapLookup_mapDelete_self {α : Type} (m : List (String × CacheEntry α))
    (k : String) :
    mapLookup (mapDelete m k) k = none := by
  induction m with
  | nil => rfl
  | cons p rest ih =>
      by_cases h : p.1 = k
      · simpa [mapDelete, List.filter, h] using ih
      · have hb : (p.1 == k) = false := by simp [h]
        simpa [mapDelete, List.filter, hb, mapLookup] using ih

/-- `SimpleCache.get` never changes the TTL configuration. -/
theorem cacheGet_snd_ttl {α : Type} (c : SimpleCache α) (now : Nat) (k : String) :
    ((cacheGet c now k).2).ttl = c.ttl := by
  unfold cacheGet
  cases mapLookup c.cache k with
  | none => rfl
  | some item =>
      by_cases h : now > item.expiresAt
      · simp [h]
      · simp [h]

/-! ### Claim theorems -/

/-- C1: refuted on the code.  Two text-affecting update events for the
same id arriving back to back each invoke the embedding pipeline
immediately (two invocations, each from the snapshot carried by the
event), and no debounce timer is ever scheduled: the
`if (op === "insert" || op === "update")` branch swallows every update
before the debounce branch can run. -/
theorem update_burst_invokes_pipeline_per_event :
    (processEvents okEmbed ⟨[], [], 0⟩
      [⟨.update, 1, some sampleCar, ["name"], none, none⟩,
       ⟨.update, 1, some sampleCarB, ["name"], none, none⟩]).embedCalls = 2 ∧
    (processEvents okEmbed ⟨[], [], 0⟩
      [⟨.update, 1, some sampleCar, ["name"], none, none⟩,
       ⟨.update, 1, some sampleCarB, ["name"], none, none⟩]).debounce = [] :=
  ⟨rfl, rfl⟩

/-- C2: refuted on the code.  An update event whose changed-field set is
exactly the passthrough field `price` still invokes the embedding
pipeline once (not zero times) and, starting from an empty vector store,
creates a brand-new VectorRecord — the metadata-only patch path is
unreachable. -/
theorem passthrough_update_triggers_reembed :
    (processChange okEmbed ⟨[], [], 0⟩
      ⟨.update, 1, some sampleCar, ["price"], some 30000, none⟩).embedCalls = 1 ∧
    countId (processChange okEmbed ⟨[], [], 0⟩
      ⟨.update, 1, some sampleCar, ["price"], some 30000, none⟩).store 1 = 1 :=
  ⟨rfl, rfl⟩

/-- C3: processing the same Insert event twice for a record id leaves the
vector store equal to a single application and with exactly one
VectorRecord for that id, provided the embedding provider succeeds and
the store respects the one-record-per-id invariant. -/
theorem insert_event_idempotent (embed : String → Except String (List Int))
    (s : Store) (deb : List Nat) (n : Nat) (car : Car) (v : List Int)
    (hembed : embed (carText car) = .ok v)
    (hcount : countId s car.id ≤ 1) :
    (processChange embed
        (processChange embed ⟨s, deb, n⟩ ⟨.insert, car.id, some car, [], none, none⟩)
        ⟨.insert, car.id, some car, [], none, none⟩).store =
      (processChange embed ⟨s, deb, n⟩
        ⟨.insert, car.id, some car, [], none, none⟩).store ∧
    countId (processChange embed ⟨s, deb, n⟩
        ⟨.insert, car.id, some car, [], none, none⟩).store car.id = 1 := by
  simp only [processChange, processChangeBody, upsertEmbeddingForCar, hembed]
  exact ⟨upsertVec_idem s _, countId_upsertVec s _ hcount⟩

/-- Witness for C3 at a concrete car, empty store and succeeding
provider. -/
theorem insert_event_idempotent_witness :
    (processChange okEmbed
        (processChange okEmbed ⟨[], [], 0⟩ ⟨.insert, 1, some sampleCar, [], none, none⟩)
        ⟨.insert, 1, some sampleCar, [], none, none⟩).store =
      (processChange okEmbed ⟨[], [], 0⟩
        ⟨.insert, 1, some sampleCar, [], none, none⟩).store ∧
    countId (processChange okEmbed ⟨[], [], 0⟩
        ⟨.insert, 1, some sampleCar, [], none, none⟩).store 1 = 1 :=
  insert_event_idempotent okEmbed [] [] 0 sampleCar [1] rfl (by decide)

/-- C4: an event whose handler body throws is caught — the state is kept
and every subsequent event is still processed — and the stream-level
error handler always reschedules `watchCarChanges` after the fixed
5000 ms delay instead of propagating the error. -/
theorem event_error_isolated_stream_retry
    (embed : String → Except String (List Int)) (st : WatcherState)
    (e : ChangeEvent) (rest : List ChangeEvent) (msg : String)
    (herr : processChangeBody embed st e = .error msg) :
    processEvents embed st (e :: rest) = processEvents embed st rest ∧
    ∀ err, onStreamError err = .ok (.rewatch 5000) := by
  constructor
  · simp [processEvents, List.foldl, processChange, herr]
  · intro err
    rfl

/-- Witness for C4: an update event lacking its full document throws,
is swallowed, and a following delete event is still handled. -/
theorem event_error_isolated_stream_retry_witness :
    processEvents okEmbed ⟨[], [], 0⟩
        [⟨.update, 1, none, [], none, none⟩, ⟨.delete, 1, none, [], none, none⟩] =
      processEvents okEmbed ⟨[], [], 0⟩ [⟨.delete, 1, none, [], none, none⟩] ∧
    ∀ err, onStreamError err = .ok (.rewatch 5000) :=
  event_error_isolated_stream_retry okEmbed ⟨[], [], 0⟩
    ⟨.update, 1, none, [], none, none⟩ [⟨.delete, 1, none, [], none, none⟩]
    "TypeError: cannot read _id of undefined" rfl

/-- C5: when the embedding provider fails, `upsertEmbeddingForCar`
aborts before touching the vector store: the store — including any
previously stored VectorRecord for that id — is returned unchanged. -/
theorem embed_failure_leaves_store_unchanged
    (embed : String → Except String (List Int)) (store : Store) (car : Car)
    (msg : String) (hfail : embed (carText car) = .error msg) :
    upsertEmbeddingForCar embed store car = store := by
  simp [upsertEmbeddingForCar, hfail]

/-- Witness for C5: a failing provider leaves the previously stored
record exactly as it was. -/
theorem embed_failure_leaves_store_unchanged_witness :
    upsertEmbeddingForCar failEmbed [sampleRec] sampleCar = [sampleRec] :=
  embed_failure_leaves_store_unchanged failEmbed [sampleRec] sampleCar
    "embedding provider unavailable" rfl

/-- C6: after `set` at instant `t` the entry carries the absolute expiry
`t + ttl`; a `get` at any instant up to that expiry returns the stored
value and leaves the cache (hence the expiry) untouched; a `get` after
the expiry reports absent and deletes the entry without any sweep. -/
theorem cache_ttl_semantics {α : Type} (c : SimpleCache α)
    (t thit texp : Nat) (k : String) (v : α)
    (h1 : thit ≤ t + c.ttl) (h2 : t + c.ttl < texp) :
    mapLookup (cacheSet c t k v).cache k = some ⟨v, t + c.ttl⟩ ∧
    cacheGet (cacheSet c t k v) thit k = (some v, cacheSet c t k v) ∧
    (cacheGet (cacheSet c t k v) texp k).1 = none ∧
    mapLookup ((cacheGet (cacheSet c t k v) texp k).2).cache k = none := by
  have hl : mapLookup (cacheSet c t k v).cache k = some ⟨v, t + c.ttl⟩ :=
    mapLookup_mapSet_self c.cache k _
  refine ⟨hl, ?_, ?_, ?_⟩
  · simp [cacheGet, hl, Nat.not_lt.mpr h1]
  · simp [cacheGet, hl, h2]
  · simp [cacheGet, hl, h2, mapLookup_mapDelete_self]

/-- Witness for C6 with TTL 100: a hit exactly at the expiry instant,
absence and lazy deletion one tick later. -/
theorem cache_ttl_semantics_witness :
    mapLookup (cacheSet (⟨[], 100⟩ : SimpleCache Nat) 10 "q" 7).cache "q" =
      some ⟨7, 110⟩ ∧
    cacheGet (cacheSet (⟨[], 100⟩ : SimpleCache Nat) 10 "q" 7) 110 "q" =
      (some 7, cacheSet (⟨[], 100⟩ : SimpleCache Nat) 10 "q" 7) ∧
    (cacheGet (cacheSet (⟨[], 100⟩ : SimpleCache Nat) 10 "q" 7) 111 "q").1 = none ∧
    mapLookup ((cacheGet (cacheSet (⟨[], 100⟩ : SimpleCache Nat) 10 "q" 7) 111 "q").2).cache "q" =
      none :=
  cache_ttl_semantics ⟨[], 100⟩ 10 110 111 "q" 7 (by decide) (by decide)

/-- C7: two queries equal after case-folding and trimming share one
cache entry: a successful fresh answer to the first is stored under the
normalized key, and the second query submitted within the TTL hits that
very entry and returns the stored answer. -/
theorem normalized_queries_share_cache_entry {α : Type}
    (pipeline : String → Except String α) (cache c1 : SimpleCache α)
    (t t' : Nat) (q1 q2 : String) (a : α)
    (hq1 : ¬ jsTrim q1 = "") (hq2 : ¬ jsTrim q2 = "")
    (hnorm : normalizeQuery q2 = normalizeQuery q1)
    (hmiss : cacheGet cache t (normalizeQuery q1) = (none, c1))
    (hpipe : pipeline q1 = .ok a)
    (hwithin : t' ≤ t + cache.ttl) :
    askCarAssistant pipeline cache t q1 =
      (.fresh a, cacheSet c1 t (normalizeQuery q1) a) ∧
    askCarAssistant pipeline (cacheSet c1 t (normalizeQuery q1) a) t' q2 =
      (.cacheHit a, cacheSet c1 t (normalizeQuery q1) a) := by
  have httl : c1.ttl = cache.ttl := by
    have hsnd := congrArg Prod.snd hmiss
    simpa using congrArg SimpleCache.ttl hsnd ▸ cacheGet_snd_ttl cache t (normalizeQuery q1)
  constructor
  · simp [askCarAssistant, hq1, hmiss, hpipe]
  · have hle : ¬ t' > t + c1.ttl := by
      rw [httl]
      exact Nat.not_lt.mpr hwithin
    simp [askCarAssistant, hq2, hnorm, cacheGet, cacheSet,
      mapLookup_mapSet_self, hle]

/-- Witness for C7: an upper-case padded query and its lower-case form
share the entry; the second is a cache hit within the TTL. -/
theorem normalized_queries_share_cache_entry_witness :
    askCarAssistant okPipe (⟨[], 1000⟩ : SimpleCache Nat) 0 "  WHAT Cars  " =
      (.fresh 7, cacheSet (⟨[], 1000⟩ : SimpleCache Nat) 0
        (normalizeQuery "  WHAT Cars  ") 7) ∧
    askCarAssistant okPipe
        (cacheSet (⟨[], 1000⟩ : SimpleCache Nat) 0 (normalizeQuery "  WHAT Cars  ") 7)
        500 "what cars" =
      (.cacheHit 7, cacheSet (⟨[], 1000⟩ : SimpleCache Nat) 0
        (normalizeQuery "  WHAT Cars  ") 7) :=
  normalized_queries_share_cache_entry okPipe ⟨[], 1000⟩ ⟨[], 1000⟩ 0 500
    "  WHAT Cars  " "what cars" 7 (by decide) (by decide) (by decide) rfl rfl
    (by decide)

/-- C8: when the pipeline after the cache check fails on a clean cache
miss, the caller gets a server error and the cache is returned exactly
as it was — nothing is stored, misses are never cached. -/
theorem provider_failure_caches_nothing {α : Type}
    (pipeline : String → Except String α) (cache : SimpleCache α)
    (t : Nat) (q msg : String)
    (hq : ¬ jsTrim q = "")
    (hmiss : mapLookup cache.cache (normalizeQuery q) = none)
    (hfail : pipeline q = .error msg) :
    askCarAssistant pipeline cache t q = (.serverError msg, cache) := by
  simp [askCarAssistant, cacheGet, hq, hmiss, hfail]

/-- Witness for C8: a failing pipeline surfaces its error and the empty
cache stays empty. -/
theorem provider_failure_caches_nothing_witness :
    askCarAssistant errPipe (⟨[], 1000⟩ : SimpleCache Nat) 0 "hello" =
      (.serverError "llm timeout", (⟨[], 1000⟩ : SimpleCache Nat)) :=
  provider_failure_caches_nothing errPipe ⟨[], 1000⟩ 0 "hello" "llm timeout"
    (by decide) rfl rfl

/-- C9 counterexample: in the change-stream canonical text, missing
fields are rendered as empty strings, not explicit placeholders — a car
with every field missing yields the empty text, and two cars whose
missing-field sets differ (name present versus brand present) yield
identical texts. -/
theorem carText_missing_fields_not_placeheld :
    carText ⟨3, none, none, none, none, none, none, none, none, none, none⟩ = "" ∧
    carText ⟨1, some "Toyota", none, none, none, none, none, none, none, none, none⟩ =
      carText ⟨2, none, some "Toyota", none, none, none, none, none, none, none, none⟩ :=
  ⟨rfl, rfl⟩

/-- C9 amended: only the controller-side `transformCarToDocument` text
renders every missing optional field as the explicit placeholder "N/A"
in a stable labeled order; the change-stream canonical text
(`upsertEmbeddingForCar`) renders missing fields as empty strings. -/
theorem transform_na_placeholder_stream_empty (i j : Nat) (n b : String) :
    transformContent ⟨i, some n, some b, none, none, none, none, none, none, none, none⟩ =
      "Car: " ++ n ++ "\nBrand: " ++ b ++ "\nModel Year: " ++ "N/A" ++
      "\nCategory: " ++ "N/A" ++ "\nDescription: " ++ "N/A" ++
      "\nPrice: " ++ "N/A" ++ "\nFuel Type: " ++ "N/A" ++
      "\nTransmission: " ++ "N/A" ++ "\nEngine Capacity: " ++ "N/A" ++
      "\nMileage: " ++ "N/A" ∧
    carText ⟨j, none, none, none, none, none, none, none, none, none, none⟩ = "" :=
  ⟨rfl, rfl⟩

/-- C10: whenever the debounce timer callback for an id completes —
whether the re-fetch succeeded, found nothing, or threw — the `finally`
clause has removed the debounce-map entry for that id. -/
theorem debounce_fire_removes_entry
    (embed : String → Except String (List Int))
    (findById : Nat → Except String (Option Car))
    (st : WatcherState) (carId : Nat) :
    ((debounceFire embed findById st carId).debounce.contains carId) = false := by
  unfold debounceFire
  cases h : findById carId with
  | error e => simp
  | ok oc =>
      cases oc with
      | none => simp
      | some car => simp

end RagApp
